import Mathlib

/-!
Verification of the PG-Strom OpenCL hash-join kernels (opencl_hashjoin.h).

A shallow embedding of the device-side hash-join engine: hash-table
addressing (`KERN_HASH_FIRST_ENTRY` / `KERN_HASH_NEXT_ENTRY`), the
two-phase count/emit execution kernel (`kern_gpuhashjoin_main`), the two
projection kernels (`kern_gpuhashjoin_projection_row` /
`kern_gpuhashjoin_projection_slot`) and the variable-length datum
reference helper (`pg_varlena_hashref`).

Machine integers are modelled as `Nat`/`Int`; byte addresses are
relative offsets (the layout itself is offset-based).  SIMT workgroups
are modelled by explicit iteration over worker ids: the source's
group-level control flow is uniform on every path the theorems below
exercise, so a sequential fold over worker ids is a faithful rendering
of one invocation.
-/

set_option autoImplicit false

namespace PgStrom

/-! ### Error codes and store formats

Modelled from the spec: the `StromError_*` codes and `KDS_FORMAT_*`
constants live in `opencl_common.h`, which is not part of the sources at
hand; only their distinctness matters here (§6 of the spec lists
Success, DataStoreCorruption, DataStoreNoSpace, CpuReCheck). -/

def StromError_Success : Nat := 0

def StromError_CpuReCheck : Nat := 1

def StromError_DataStoreNoSpace : Nat := 2

def StromError_DataStoreCorruption : Nat := 3

def KDS_FORMAT_ROW : Nat := 1

def KDS_FORMAT_ROW_FLAT : Nat := 2

def KDS_FORMAT_TUPSLOT : Nat := 3

/-- Modelled from the spec: `STROM_SET_ERROR` (defined in
`opencl_common.h`, outside the sources at hand) implements the
"first non-success code observed wins" update rule of §7: the new code
is stored only when the current value is still Success. -/
def STROM_SET_ERROR (cur code : Nat) : Nat :=
  if cur = StromError_Success then code else cur

/-- Modelled from the spec: `kern_writeback_error_status` (defined in
`opencl_common.h`) merges every worker's private error code into the
shared `errcode` field under the same first-non-success-wins rule. -/
def kern_writeback_error_status (old : Nat) (codes : List Nat) : Nat :=
  codes.foldl STROM_SET_ERROR old

/-! ### Hash-table addressing (source lines 97–159)

`kern_hashtable` carries the slot array (`hash_slot`, read through
`KERN_HASHTABLE_SLOT`) as a function from bucket index to the stored
32-bit offset; `entry_at` maps a byte offset relative to the table base
to the `kern_hashentry` found there. -/

structure kern_hashentry where
  next : Nat
  hash : Nat
  rowid : Nat
  t_len : Nat

structure kern_hashtable where
  ncols : Nat
  nslots : Nat
  hash_slot : Nat → Nat
  entry_at : Nat → kern_hashentry

/-- The bucket-index computation `hash % khtable->nslots` of
`KERN_HASH_FIRST_ENTRY`.  C's `%` is undefined for a zero divisor, so
the result is `none` exactly when `nslots = 0`. -/
def bucket_index (hash nslots : Nat) : Option Nat :=
  if nslots = 0 then none else some (hash % nslots)

/-- `KERN_HASH_FIRST_ENTRY` (lines 139–149).  Outer `none` marks the
division-by-zero branch (`nslots = 0`); inner `none` is the source's
`NULL` return for an empty bucket; otherwise the result is the byte
offset, relative to the table base, at which the first chained entry
lives. -/
def KERN_HASH_FIRST_ENTRY (khtable : kern_hashtable) (hash : Nat) :
    Option (Option Nat) :=
  match bucket_index hash khtable.nslots with
  | none => none
  | some index =>
      if khtable.hash_slot index = 0 then some none
      else some (some (khtable.hash_slot index))

/-- `KERN_HASH_NEXT_ENTRY` (lines 151–159): `NULL` when the entry's
`next` field is 0, otherwise the entry at byte offset `next` from the
table base. -/
def KERN_HASH_NEXT_ENTRY (khtable : kern_hashtable)
    (khentry : kern_hashentry) : Option Nat :=
  if khentry.next = 0 then none else some khentry.next

/-! ### Execution kernel `kern_gpuhashjoin_main` (source lines 277–389) -/

structure kern_multihash where
  ntables : Nat
  htable_offset : Nat → Nat

structure kern_row_map where
  nvalids : Nat
  rindex : Nat → Nat

structure kern_resultbuf where
  nrels : Nat
  nrooms : Nat
  nitems : Nat
  errcode : Nat
  results : Nat → Int

/-- Row selection (lines 307–312): without a row map the worker's index
is its global position; with one, position `< nvalids` reads
`rindex[position]` and any other position is clamped to `kds->nitems`,
an out-of-range value. -/
def kds_index_of (krowmap : Option kern_row_map) (kds_nitems gid : Nat) :
    Nat :=
  match krowmap with
  | none => gid
  | some krm => if gid < krm.nvalids then krm.rindex gid else kds_nitems

/-- Count phase guard (lines 320–328): `gpuhashjoin_execute` (abstracted
as `probe`, the injected strategy in counting mode) runs only for
indexes below `kds->nitems`; every other worker contributes 0. -/
def n_matches_of (probe : Nat → Nat) (kds_nitems idx : Nat) : Nat :=
  if idx < kds_nitems then probe idx else 0

/-- A worker's match count after row selection. -/
def worker_matches (probe : Nat → Nat) (krowmap : Option kern_row_map)
    (kds_nitems gid : Nat) : Nat :=
  n_matches_of probe kds_nitems (kds_index_of krowmap kds_nitems gid)

/-- Modelled from the spec: `arithmetic_stairlike_add` (defined in
`opencl_common.h`) computes, per §4.2 step 3, an exclusive prefix sum of
the per-worker values; this is the local write offset of worker `gid`. -/
def stairlike_offset (f : Nat → Nat) (gid : Nat) : Nat :=
  ((List.range gid).map f).sum

/-- Modelled from the spec: the group total produced by
`arithmetic_stairlike_add` (its third argument). -/
def stairlike_total (f : Nat → Nat) (groupSize : Nat) : Nat :=
  ((List.range groupSize).map f).sum

/-- Sequential store of a list of values into the results array starting
at a flat index. -/
def write_seq (res : Nat → Int) (pos : Nat) (vals : List Int) : Nat → Int :=
  match vals with
  | [] => res
  | v :: vs => write_seq (fun i => if i = pos then v else res i) (pos + 1) vs

/-- One invocation of `kern_gpuhashjoin_main` by a workgroup of
`groupSize` workers (local id = global id within the group).  `probe`
abstracts `gpuhashjoin_execute` in counting mode, `emit idx` the flat
list of `nrels`-wide combinations it writes for outer index `idx` in
emit mode, and `probeErr idx` the worker-private error code the strategy
leaves behind.  Control flow mirrors the source: the `nrels` sanity
check (lines 297–301), row selection and count (307–328), stair-like
prefix sum and the leader's single `atomic_add` (334–356, skipped when
the group total is zero), the capacity check (363–367), the emit phase
(374–385) and the error write-back (388). -/
def kern_gpuhashjoin_main (kmhash : kern_multihash) (kds_nitems : Nat)
    (krowmap : Option kern_row_map) (groupSize : Nat)
    (probe : Nat → Nat) (emit : Nat → List Int) (probeErr : Nat → Nat)
    (kresults : kern_resultbuf) : kern_resultbuf :=
  if kresults.nrels ≠ kmhash.ntables + 1 then
    { kresults with
      errcode := kern_writeback_error_status kresults.errcode
        (List.replicate groupSize StromError_DataStoreCorruption) }
  else
    let wm := worker_matches probe krowmap kds_nitems
    let nitems := stairlike_total wm groupSize
    let base := if 0 < nitems then kresults.nitems else 0
    let nitems' := if 0 < nitems then kresults.nitems + nitems
                   else kresults.nitems
    if base + nitems > kresults.nrooms then
      { kresults with
        nitems := nitems',
        errcode := kern_writeback_error_status kresults.errcode
          (List.replicate groupSize StromError_DataStoreNoSpace) }
    else
      let res' := (List.range groupSize).foldl (fun r gid =>
        if 0 < wm gid then
          write_seq r (kresults.nrels * (base + stairlike_offset wm gid))
            (emit (kds_index_of krowmap kds_nitems gid))
        else r) kresults.results
      let codes := (List.range groupSize).map (fun gid =>
        let idx := kds_index_of krowmap kds_nitems gid
        if idx < kds_nitems then probeErr idx else StromError_Success)
      { kresults with
        nitems := nitems',
        results := res',
        errcode := kern_writeback_error_status kresults.errcode codes }

/-! ### Projection kernels (source lines 410–813)

Each projection kernel launch is modelled as a fold of the per-worker
step over global ids `0, …, nthreads-1`; only worker 0 ever writes the
destination item count, and error write-back merges every worker's
private code into `kresults->errcode` under the first-non-success rule,
so the sequential order is immaterial. -/

/-- Destination store of the row-format projection kernel: flat-row
format, a shared byte arena indexed from the end, a per-row
`kern_rowitem` offset table and a `usage` counter. -/
structure kds_dest_row_t where
  format : Nat
  nrooms : Nat
  nitems : Nat
  usage : Nat
  length : Nat
  rowitem : Nat → Nat
  arena : Nat → Nat

/-- One worker of `kern_gpuhashjoin_projection_row` (lines 410–663):
format check (433–439), capacity check (446–451), the single item-count
update by global id 0 (459–460) and then the unconditional `goto out`
at line 461 — everything from `Step.1` on (lines 463–659) is
unreachable, so the worker returns here.  Result: the destination state
and the worker's private error code. -/
def projection_row_worker (kresults : kern_resultbuf) (kds_format : Nat)
    (gid : Nat) (kds_dest : kds_dest_row_t) : kds_dest_row_t × Nat :=
  if ¬ ((kds_format = KDS_FORMAT_ROW ∨ kds_format = KDS_FORMAT_ROW_FLAT) ∧
        kds_dest.format = KDS_FORMAT_ROW_FLAT) then
    (kds_dest, StromError_DataStoreCorruption)
  else if kresults.nitems > kresults.nrooms ∨
          kresults.nitems > kds_dest.nrooms then
    (kds_dest, StromError_DataStoreNoSpace)
  else if gid = 0 then
    ({ kds_dest with nitems := kresults.nitems }, StromError_Success)
  else
    (kds_dest, StromError_Success)

/-- Generic SIMT launch: fold the per-worker step over global ids,
merging each worker's private error code into the result buffer's
`errcode` via the write-back helper. -/
def kernel_launch {δ : Type} (worker : Nat → δ → δ × Nat)
    (nthreads : Nat) (dest : δ) (errcode0 : Nat) : δ × Nat :=
  (List.range nthreads).foldl
    (fun st gid =>
      let r := worker gid st.1
      (r.1, STROM_SET_ERROR st.2 r.2))
    (dest, errcode0)

/-- A whole launch of `kern_gpuhashjoin_projection_row` over `nthreads`
workers; the second component is the value of `kresults->errcode`
after every worker's write-back. -/
def kern_gpuhashjoin_projection_row (kresults : kern_resultbuf)
    (kds_format : Nat) (nthreads : Nat) (kds_dest : kds_dest_row_t) :
    kds_dest_row_t × Nat :=
  kernel_launch (projection_row_worker kresults kds_format) nthreads
    kds_dest kresults.errcode

/-- Destination store of the column-slot projection kernel. -/
structure kds_dest_slot_t where
  format : Nat
  nrooms : Nat
  nitems : Nat
  values : Nat → Nat → Int
  isnull : Nat → Nat → Bool

/-- One worker of `kern_gpuhashjoin_projection_slot` (lines 665–813):
capacity check first (687–692), then the item-count update by global
id 0 (694–695), then the responsibility check `gid ≥ nitems` (697–698),
and only then the format check (700–706).  `body gid` abstracts the
per-depth extraction loop (708–809): it yields the per-column values,
null flags and the worker's private error code; the loop stores only
into worker `gid`'s row of the destination value/null arrays (via
`KERN_DATA_STORE_VALUES`/`ISNULL` at `get_global_id(0)`), and its
addressing of the source tuples is modelled separately by
`projection_slot_tuple_loc`. -/
def projection_slot_worker
    (body : Nat → (Nat → Int) × (Nat → Bool) × Nat)
    (kresults : kern_resultbuf) (kds_format : Nat)
    (gid : Nat) (kds_dest : kds_dest_slot_t) : kds_dest_slot_t × Nat :=
  if kresults.nitems > kresults.nrooms ∨
     kresults.nitems > kds_dest.nrooms then
    (kds_dest, StromError_DataStoreNoSpace)
  else
    let dest1 := if gid = 0 then { kds_dest with nitems := kresults.nitems }
                 else kds_dest
    if gid ≥ kresults.nitems then
      (dest1, StromError_Success)
    else if ¬ ((kds_format = KDS_FORMAT_ROW ∨
                kds_format = KDS_FORMAT_ROW_FLAT) ∧
               kds_dest.format = KDS_FORMAT_TUPSLOT) then
      (dest1, StromError_DataStoreCorruption)
    else
      ({ dest1 with
         values := fun r c => if r = gid then (body gid).1 c
                              else dest1.values r c,
         isnull := fun r c => if r = gid then (body gid).2.1 c
                              else dest1.isnull r c },
       (body gid).2.2)

/-- A whole launch of `kern_gpuhashjoin_projection_slot`. -/
def kern_gpuhashjoin_projection_slot
    (body : Nat → (Nat → Int) × (Nat → Bool) × Nat)
    (kresults : kern_resultbuf) (kds_format : Nat) (nthreads : Nat)
    (kds_dest : kds_dest_slot_t) : kds_dest_slot_t × Nat :=
  kernel_launch (projection_slot_worker body kresults kds_format) nthreads
    kds_dest kresults.errcode

/-! ### Result-combination interpretation (C7) -/

/-- `rbuffer = kresults->results + nrels * get_global_id(0)` — the view
of worker `gid`'s combination, shared by both projection kernels
(lines 453 and 709). -/
def rbuffer_of (kresults : kern_resultbuf) (gid : Nat) : Nat → Int :=
  fun d => kresults.results (kresults.nrels * gid + d)

/-- `KERN_HASHTABLE(kmhash, depth)` (lines 129–131): byte offset of the
hash table of a given depth from the `kern_multihash` base. -/
def KERN_HASHTABLE_off (kmhash : kern_multihash) (depth : Nat) : Nat :=
  kmhash.htable_offset depth

/-- Where a projection kernel finds the source tuple of one depth of a
combination: a row index into the outer store, or a byte offset
(relative to the `kern_multihash` base) of a `kern_hashentry` whose
embedded tuple is read. -/
inductive tuple_loc where
  | fromOuterRow (row : Int)
  | fromHashEntry (addr : Int)
deriving DecidableEq

/-- Per-depth source-tuple location of the slot projection kernel
(lines 725–760): depth 0 looks the outer tuple up at `rbuffer[0] - 1`
(via `kern_get_tuple_rs`/`_rsflat`); depth ≥ 1 takes the entry at
`(char *)khtable + rbuffer[depth]`, i.e. at offset
`htable_offset[depth] + rbuffer[depth]` from the multihash base. -/
def projection_slot_tuple_loc (kmhash : kern_multihash)
    (kresults : kern_resultbuf) (gid depth : Nat) : tuple_loc :=
  let rbuffer := rbuffer_of kresults gid
  if depth = 0 then .fromOuterRow (rbuffer 0 - 1)
  else .fromHashEntry ((KERN_HASHTABLE_off kmhash depth : Int) +
                       rbuffer depth)

/-- Per-column source-datum location in the row projection kernel's
length-computation step (lines 479–497, as written; the code is
unreachable, see the early-exit theorems): depth 0 reads the outer row
`rbuffer[0] - 1` via `kern_get_datum`; `0 < depth < nrels` reads the
entry at `(char *)khtable + rbuffer[depth]`; any other depth yields
`NULL`. -/
def projection_row_datum_loc (kmhash : kern_multihash)
    (kresults : kern_resultbuf) (gid depth : Nat) : Option tuple_loc :=
  let rbuffer := rbuffer_of kresults gid
  if depth = 0 then some (.fromOuterRow (rbuffer 0 - 1))
  else if depth < kresults.nrels then
    some (.fromHashEntry ((KERN_HASHTABLE_off kmhash depth : Int) +
                          rbuffer depth))
  else none

/-! ### Variable-length datum reference (source lines 840–864) -/

/-- PostgreSQL varlena header test `VARATT_IS_4B_U` (little-endian
`postgres.h`, not under the sources at hand): lowest two bits of the
first header byte are `00` — an uncompressed 4-byte-header datum. -/
def VARATT_IS_4B_U (hdr : Nat) : Bool := hdr % 4 = 0

/-- PostgreSQL varlena header test `VARATT_IS_1B`: lowest bit of the
first header byte is `1` — a short 1-byte-header datum. -/
def VARATT_IS_1B (hdr : Nat) : Bool := hdr % 2 = 1

structure pg_varlena_t where
  isnull : Bool
  value : Option Nat
deriving DecidableEq

/-- `pg_varlena_hashref` (lines 840–864).  The datum fetched by
`kern_get_datum_tuple` is abstracted as `none` (absent) or
`some hdr` with `hdr` the first header byte of the varlena; the result
pairs the `pg_varlena_t` with the updated private error code. -/
def pg_varlena_hashref (vl_ptr : Option Nat) (errcode : Nat) :
    pg_varlena_t × Nat :=
  match vl_ptr with
  | none => ({ isnull := true, value := none }, errcode)
  | some hdr =>
      if VARATT_IS_4B_U hdr || VARATT_IS_1B hdr then
        ({ isnull := false, value := some hdr }, errcode)
      else
        ({ isnull := true, value := none },
         STROM_SET_ERROR errcode StromError_CpuReCheck)

/-! ## Helper lemmas -/

theorem STROM_SET_ERROR_idem (old c : Nat) :
    STROM_SET_ERROR (STROM_SET_ERROR old c) c = STROM_SET_ERROR old c := by
  unfold STROM_SET_ERROR
  by_cases h : old = StromError_Success
  · by_cases hc : c = StromError_Success <;> simp [h, hc]
  · simp [h]

theorem STROM_SET_ERROR_absorb (old c x : Nat)
    (h : c ≠ StromError_Success) :
    STROM_SET_ERROR (STROM_SET_ERROR old c) x = STROM_SET_ERROR old c := by
  unfold STROM_SET_ERROR
  by_cases ho : old = StromError_Success
  · simp [ho, h]
  · simp [ho]

theorem writeback_replicate (n : Nat) (old c : Nat) (h : 0 < n) :
    kern_writeback_error_status old (List.replicate n c) =
      STROM_SET_ERROR old c := by
  induction n generalizing old with
  | zero => exact absurd h (by simp)
  | succ m ih =>
    rw [List.replicate_succ]
    unfold kern_writeback_error_status at ih ⊢
    rw [List.foldl_cons]
    rcases Nat.eq_zero_or_pos m with h0 | hm
    · subst h0; simp
    · rw [ih _ hm, STROM_SET_ERROR_idem]

theorem kernel_launch_succ {δ : Type} (worker : Nat → δ → δ × Nat)
    (n : Nat) (dest : δ) (e0 : Nat) :
    kernel_launch worker (n + 1) dest e0 =
      ((worker n (kernel_launch worker n dest e0).1).1,
       STROM_SET_ERROR (kernel_launch worker n dest e0).2
         (worker n (kernel_launch worker n dest e0).1).2) := by
  unfold kernel_launch
  rw [List.range_succ, List.foldl_append, List.foldl_cons, List.foldl_nil]

theorem kernel_launch_run {δ : Type} (worker : Nat → δ → δ × Nat)
    (d0 d1 : δ) (c : Nat)
    (h0 : worker 0 d0 = (d1, c))
    (hrest : ∀ gid, 0 < gid → worker gid d1 = (d1, c))
    (n : Nat) (hn : 0 < n) (e0 : Nat) :
    kernel_launch worker n d0 e0 = (d1, STROM_SET_ERROR e0 c) := by
  induction n with
  | zero => exact absurd hn (by simp)
  | succ m ih =>
    rcases Nat.eq_zero_or_pos m with h0' | hm
    · subst h0'
      unfold kernel_launch
      simp [List.range_succ, List.range_zero, h0]
    · rw [kernel_launch_succ, ih hm]
      simp only
      rw [hrest m hm, STROM_SET_ERROR_idem]

theorem kernel_launch_first_error {δ : Type} (worker : Nat → δ → δ × Nat)
    (d0 d1 : δ) (c : Nat) (hc : c ≠ StromError_Success)
    (h0 : worker 0 d0 = (d1, c))
    (hfix : ∀ gid, 0 < gid → (worker gid d1).1 = d1)
    (n : Nat) (hn : 0 < n) (e0 : Nat) :
    kernel_launch worker n d0 e0 = (d1, STROM_SET_ERROR e0 c) := by
  induction n with
  | zero => exact absurd hn (by simp)
  | succ m ih =>
    rcases Nat.eq_zero_or_pos m with h0' | hm
    · subst h0'
      unfold kernel_launch
      simp [List.range_succ, List.range_zero, h0]
    · rw [kernel_launch_succ, ih hm]
      simp only
      rw [hfix m hm, STROM_SET_ERROR_absorb _ _ _ hc]

theorem main_mismatch_eq (kmhash : kern_multihash) (kds_nitems : Nat)
    (krowmap : Option kern_row_map) (groupSize : Nat)
    (probe : Nat → Nat) (emit : Nat → List Int) (probeErr : Nat → Nat)
    (kr : kern_resultbuf) (hmis : kr.nrels ≠ kmhash.ntables + 1) :
    kern_gpuhashjoin_main kmhash kds_nitems krowmap groupSize
        probe emit probeErr kr =
      { kr with
        errcode := kern_writeback_error_status kr.errcode
          (List.replicate groupSize StromError_DataStoreCorruption) } := by
  unfold kern_gpuhashjoin_main
  rw [if_pos hmis]

theorem main_nospace_eq (kmhash : kern_multihash) (kds_nitems : Nat)
    (krowmap : Option kern_row_map) (groupSize : Nat)
    (probe : Nat → Nat) (emit : Nat → List Int) (probeErr : Nat → Nat)
    (kr : kern_resultbuf) (hrels : kr.nrels = kmhash.ntables + 1)
    (htotal :
      0 < stairlike_total (worker_matches probe krowmap kds_nitems) groupSize)
    (hover :
      kr.nitems +
        stairlike_total (worker_matches probe krowmap kds_nitems) groupSize >
        kr.nrooms) :
    kern_gpuhashjoin_main kmhash kds_nitems krowmap groupSize
        probe emit probeErr kr =
      { kr with
        nitems := kr.nitems +
          stairlike_total (worker_matches probe krowmap kds_nitems) groupSize,
        errcode := kern_writeback_error_status kr.errcode
          (List.replicate groupSize StromError_DataStoreNoSpace) } := by
  unfold kern_gpuhashjoin_main
  rw [if_neg (by omega)]
  simp only [htotal, if_true, gt_iff_lt]
  rw [if_pos hover]

/-- Claim C3: in `kern_gpuhashjoin_main`, after the group leader's single
atomic fetch-add of the group total against `kresults->nitems` yields
`base`, if `base + group_total > nrooms` the invocation records
DataStoreNoSpace and performs no writes to the results array for this
group (in particular no entry at or beyond index `nrooms * nrels`); and
because the counter increment happened before this check,
`kresults->nitems` exceeds `nrooms` on overflow. -/
theorem main_capacity_overflow (kmhash : kern_multihash) (kds_nitems : Nat)
    (krowmap : Option kern_row_map) (groupSize : Nat)
    (probe : Nat → Nat) (emit : Nat → List Int) (probeErr : Nat → Nat)
    (kr : kern_resultbuf) (hrels : kr.nrels = kmhash.ntables + 1)
    (hn : 0 < groupSize)
    (htotal :
      0 < stairlike_total (worker_matches probe krowmap kds_nitems) groupSize)
    (hover :
      kr.nitems +
        stairlike_total (worker_matches probe krowmap kds_nitems) groupSize >
        kr.nrooms)
    (he : kr.errcode = StromError_Success) :
    (kern_gpuhashjoin_main kmhash kds_nitems krowmap groupSize
        probe emit probeErr kr).errcode = StromError_DataStoreNoSpace ∧
    (kern_gpuhashjoin_main kmhash kds_nitems krowmap groupSize
        probe emit probeErr kr).results = kr.results ∧
    (∀ i, kr.nrooms * kr.nrels ≤ i →
      (kern_gpuhashjoin_main kmhash kds_nitems krowmap groupSize
          probe emit probeErr kr).results i = kr.results i) ∧
    (kern_gpuhashjoin_main kmhash kds_nitems krowmap groupSize
        probe emit probeErr kr).nitems > kr.nrooms := by
  rw [main_nospace_eq kmhash kds_nitems krowmap groupSize probe emit probeErr
      kr hrels htotal hover]
  refine ⟨?_, rfl, fun i _ => rfl, by simpa using hover⟩
  simp [writeback_replicate groupSize _ _ hn, STROM_SET_ERROR, he]

theorem main_capacity_overflow_witness :
    (kern_gpuhashjoin_main ⟨1, fun _ => 0⟩ 2 none 2
        (fun _ => 1) (fun _ => [5, 7]) (fun _ => 0)
        ⟨2, 1, 0, 0, fun _ => 0⟩).errcode = StromError_DataStoreNoSpace ∧
    (kern_gpuhashjoin_main ⟨1, fun _ => 0⟩ 2 none 2
        (fun _ => 1) (fun _ => [5, 7]) (fun _ => 0)
        ⟨2, 1, 0, 0, fun _ => 0⟩).nitems > 1 :=
  ⟨(main_capacity_overflow ⟨1, fun _ => 0⟩ 2 none 2
      (fun _ => 1) (fun _ => [5, 7]) (fun _ => 0) ⟨2, 1, 0, 0, fun _ => 0⟩
      (by decide) (by decide) (by decide) (by decide) rfl).1,
   (main_capacity_overflow ⟨1, fun _ => 0⟩ 2 none 2
      (fun _ => 1) (fun _ => [5, 7]) (fun _ => 0) ⟨2, 1, 0, 0, fun _ => 0⟩
      (by decide) (by decide) (by decide) (by decide) rfl).2.2.2⟩

/-- Claim C4: when `kresults->nrels` differs from `kmhash->ntables + 1`,
`kern_gpuhashjoin_main` records DataStoreCorruption and performs no
counting (the outcome is independent of the injected probe strategy),
no atomic update of `kresults->nitems`, and no writes to the results
array: the only state change is the error-code write-back. -/
theorem main_nrels_mismatch (kmhash : kern_multihash) (kds_nitems : Nat)
    (krowmap : Option kern_row_map) (groupSize : Nat)
    (probe : Nat → Nat) (emit : Nat → List Int) (probeErr : Nat → Nat)
    (kr : kern_resultbuf) (hmis : kr.nrels ≠ kmhash.ntables + 1)
    (hn : 0 < groupSize) :
    kern_gpuhashjoin_main kmhash kds_nitems krowmap groupSize
        probe emit probeErr kr =
      { kr with
        errcode := STROM_SET_ERROR kr.errcode
          StromError_DataStoreCorruption } ∧
    (∀ probe2 emit2 probeErr2,
      kern_gpuhashjoin_main kmhash kds_nitems krowmap groupSize
          probe emit probeErr kr =
        kern_gpuhashjoin_main kmhash kds_nitems krowmap groupSize
          probe2 emit2 probeErr2 kr) := by
  constructor
  · rw [main_mismatch_eq kmhash kds_nitems krowmap groupSize probe emit
        probeErr kr hmis, writeback_replicate groupSize _ _ hn]
  · intro probe2 emit2 probeErr2
    rw [main_mismatch_eq kmhash kds_nitems krowmap groupSize probe emit
        probeErr kr hmis,
      main_mismatch_eq kmhash kds_nitems krowmap groupSize probe2 emit2
        probeErr2 kr hmis]

theorem main_nrels_mismatch_witness :
    kern_gpuhashjoin_main ⟨1, fun _ => 0⟩ 2 none 2
        (fun _ => 1) (fun _ => [5, 7]) (fun _ => 0)
        ⟨3, 1, 0, 0, fun _ => 0⟩ =
      { (⟨3, 1, 0, 0, fun _ => 0⟩ : kern_resultbuf) with
        errcode := STROM_SET_ERROR StromError_Success
          StromError_DataStoreCorruption } ∧
    kern_gpuhashjoin_main ⟨1, fun _ => 0⟩ 2 none 2
        (fun _ => 1) (fun _ => [5, 7]) (fun _ => 0)
        ⟨3, 1, 0, 0, fun _ => 0⟩ =
      kern_gpuhashjoin_main ⟨1, fun _ => 0⟩ 2 none 2
        (fun _ => 9) (fun _ => []) (fun _ => 1)
        ⟨3, 1, 0, 0, fun _ => 0⟩ :=
  ⟨(main_nrels_mismatch ⟨1, fun _ => 0⟩ 2 none 2
      (fun _ => 1) (fun _ => [5, 7]) (fun _ => 0) ⟨3, 1, 0, 0, fun _ => 0⟩
      (by decide) (by decide)).1,
   (main_nrels_mismatch ⟨1, fun _ => 0⟩ 2 none 2
      (fun _ => 1) (fun _ => [5, 7]) (fun _ => 0) ⟨3, 1, 0, 0, fun _ => 0⟩
      (by decide) (by decide)).2 (fun _ => 9) (fun _ => []) (fun _ => 1)⟩

/-- Claim C6: row selection in `kern_gpuhashjoin_main`: with no RowMap a
worker's outer-row index is its global position; with a RowMap and
position `< nvalids` it is `rindex[position]`; with a RowMap and
position `≥ nvalids` it is the out-of-range index `kds->nitems`; and any
worker whose index is not below `kds->nitems` contributes exactly zero
matches — for every probe strategy and every RowMap contents, the probe
is never consulted for it. -/
theorem main_row_selection :
    (∀ kds_nitems gid, kds_index_of none kds_nitems gid = gid) ∧
    (∀ krm : kern_row_map, ∀ kds_nitems gid, gid < krm.nvalids →
      kds_index_of (some krm) kds_nitems gid = krm.rindex gid) ∧
    (∀ krm : kern_row_map, ∀ kds_nitems gid, ¬ gid < krm.nvalids →
      kds_index_of (some krm) kds_nitems gid = kds_nitems) ∧
    (∀ probe : Nat → Nat, ∀ krowmap kds_nitems gid,
      ¬ kds_index_of krowmap kds_nitems gid < kds_nitems →
      worker_matches probe krowmap kds_nitems gid = 0) := by
  refine ⟨fun _ _ => rfl, fun krm kds_nitems gid h => ?_,
    fun krm kds_nitems gid h => ?_,
    fun probe krowmap kds_nitems gid h => ?_⟩
  · simp [kds_index_of, h]
  · simp [kds_index_of, h]
  · simp [worker_matches, n_matches_of, h]

theorem main_row_selection_witness :
    kds_index_of none 5 3 = 3 ∧
    kds_index_of (some ⟨2, fun i => 10 + i⟩) 5 1 = 11 ∧
    kds_index_of (some ⟨2, fun i => 10 + i⟩) 5 4 = 5 ∧
    worker_matches (fun i => i + 7) (some ⟨2, fun i => 10 + i⟩) 5 4 = 0 :=
  ⟨main_row_selection.1 5 3,
   main_row_selection.2.1 ⟨2, fun i => 10 + i⟩ 5 1 (by decide),
   main_row_selection.2.2.1 ⟨2, fun i => 10 + i⟩ 5 4 (by decide),
   main_row_selection.2.2.2 (fun i => i + 7) (some ⟨2, fun i => 10 + i⟩) 5 4
     (by decide)⟩

theorem projection_row_worker_eq (kresults : kern_resultbuf)
    (kds_format gid : Nat) (kds_dest : kds_dest_row_t)
    (hfmt : kds_format = KDS_FORMAT_ROW ∨ kds_format = KDS_FORMAT_ROW_FLAT)
    (hdfmt : kds_dest.format = KDS_FORMAT_ROW_FLAT)
    (h1 : kresults.nitems ≤ kresults.nrooms)
    (h2 : kresults.nitems ≤ kds_dest.nrooms) :
    projection_row_worker kresults kds_format gid kds_dest =
      (if gid = 0 then { kds_dest with nitems := kresults.nitems }
       else kds_dest, StromError_Success) := by
  unfold projection_row_worker
  rw [if_neg (not_not.mpr ⟨hfmt, hdfmt⟩), if_neg (by omega)]
  by_cases h : gid = 0 <;> simp [h]

/-- Claim C2: a `kern_gpuhashjoin_projection_row` invocation that passes
the format check and the nitems-capacity check exits unconditionally
before the tuple-assembly steps: the only write on the destination store
is setting `kds_dest->nitems` to `kresults->nitems` (done by the worker
with global id 0 and by no other worker); `usage`, the row-item offset
table and the tuple arena are left unchanged and the aggregated errcode
remains Success. -/
theorem projection_row_early_exit (kresults : kern_resultbuf)
    (kds_format nthreads : Nat) (kds_dest : kds_dest_row_t)
    (hfmt : kds_format = KDS_FORMAT_ROW ∨ kds_format = KDS_FORMAT_ROW_FLAT)
    (hdfmt : kds_dest.format = KDS_FORMAT_ROW_FLAT)
    (h1 : kresults.nitems ≤ kresults.nrooms)
    (h2 : kresults.nitems ≤ kds_dest.nrooms)
    (hn : 0 < nthreads)
    (he : kresults.errcode = StromError_Success) :
    kern_gpuhashjoin_projection_row kresults kds_format nthreads kds_dest =
      ({ kds_dest with nitems := kresults.nitems }, StromError_Success) ∧
    (∀ gid, gid ≠ 0 →
      (projection_row_worker kresults kds_format gid kds_dest).1 =
        kds_dest) ∧
    (projection_row_worker kresults kds_format 0 kds_dest).1 =
      { kds_dest with nitems := kresults.nitems } := by
  refine ⟨?_, fun gid hgid => ?_, ?_⟩
  · unfold kern_gpuhashjoin_projection_row
    rw [kernel_launch_run _ kds_dest
        { kds_dest with nitems := kresults.nitems } StromError_Success
        (by rw [projection_row_worker_eq kresults kds_format 0 kds_dest
            hfmt hdfmt h1 h2]; simp)
        (fun gid hgid => by
          rw [projection_row_worker_eq kresults kds_format gid
              { kds_dest with nitems := kresults.nitems } hfmt hdfmt h1 h2]
          simp [Nat.pos_iff_ne_zero.mp hgid])
        nthreads hn kresults.errcode]
    simp [he, STROM_SET_ERROR]
  · rw [projection_row_worker_eq kresults kds_format gid kds_dest
        hfmt hdfmt h1 h2]
    simp [hgid]
  · rw [projection_row_worker_eq kresults kds_format 0 kds_dest
        hfmt hdfmt h1 h2]
    simp

theorem projection_row_early_exit_witness :
    kern_gpuhashjoin_projection_row ⟨2, 4, 3, 0, fun _ => 0⟩
        KDS_FORMAT_ROW 2 ⟨KDS_FORMAT_ROW_FLAT, 4, 0, 0, 1000,
          fun _ => 0, fun _ => 0⟩ =
      ({ (⟨KDS_FORMAT_ROW_FLAT, 4, 0, 0, 1000, fun _ => 0, fun _ => 0⟩ :
          kds_dest_row_t) with nitems := 3 }, StromError_Success) :=
  (projection_row_early_exit ⟨2, 4, 3, 0, fun _ => 0⟩ KDS_FORMAT_ROW 2
    ⟨KDS_FORMAT_ROW_FLAT, 4, 0, 0, 1000, fun _ => 0, fun _ => 0⟩
    (Or.inl rfl) rfl (by decide) (by decide) (by decide) rfl).1

/-- Claim C1 (failing input): at a valid row-projection invocation — a
successful ResultBuffer (`nrels = 2`, `nitems = 1 ≤ nrooms = 4`), a
flat-row source and a flat-row destination with ample space — the
kernel performs none of the three assembly steps: the destination's
`usage` counter is never advanced (no space reservation), the row-item
offset table and the tuple arena are byte-for-byte unchanged, and the
errcode stays Success; the only effect is `nitems := 1`.  This
contradicts the specified three-step assembly contract; the early
`goto out` at line 461 of the source makes lines 463–659 unreachable. -/
theorem projection_row_no_assembly_at_failing_input :
    (kern_gpuhashjoin_projection_row ⟨2, 4, 1, 0, fun _ => 0⟩
        KDS_FORMAT_ROW_FLAT 2
        ⟨KDS_FORMAT_ROW_FLAT, 4, 0, 0, 1000, fun _ => 0,
         fun _ => 0⟩).1.usage = 0 ∧
    (kern_gpuhashjoin_projection_row ⟨2, 4, 1, 0, fun _ => 0⟩
        KDS_FORMAT_ROW_FLAT 2
        ⟨KDS_FORMAT_ROW_FLAT, 4, 0, 0, 1000, fun _ => 0,
         fun _ => 0⟩).1.rowitem = (fun _ => 0) ∧
    (kern_gpuhashjoin_projection_row ⟨2, 4, 1, 0, fun _ => 0⟩
        KDS_FORMAT_ROW_FLAT 2
        ⟨KDS_FORMAT_ROW_FLAT, 4, 0, 0, 1000, fun _ => 0,
         fun _ => 0⟩).1.arena = (fun _ => 0) ∧
    (kern_gpuhashjoin_projection_row ⟨2, 4, 1, 0, fun _ => 0⟩
        KDS_FORMAT_ROW_FLAT 2
        ⟨KDS_FORMAT_ROW_FLAT, 4, 0, 0, 1000, fun _ => 0,
         fun _ => 0⟩).1.nitems = 1 ∧
    (kern_gpuhashjoin_projection_row ⟨2, 4, 1, 0, fun _ => 0⟩
        KDS_FORMAT_ROW_FLAT 2
        ⟨KDS_FORMAT_ROW_FLAT, 4, 0, 0, 1000, fun _ => 0,
         fun _ => 0⟩).2 = StromError_Success :=
  ⟨rfl, rfl, rfl, rfl, rfl⟩

theorem projection_row_worker_nospace (kresults : kern_resultbuf)
    (kds_format gid : Nat) (kds_dest : kds_dest_row_t)
    (hfmt : kds_format = KDS_FORMAT_ROW ∨ kds_format = KDS_FORMAT_ROW_FLAT)
    (hdfmt : kds_dest.format = KDS_FORMAT_ROW_FLAT)
    (h : kresults.nitems > kresults.nrooms ∨
         kresults.nitems > kds_dest.nrooms) :
    projection_row_worker kresults kds_format gid kds_dest =
      (kds_dest, StromError_DataStoreNoSpace) := by
  unfold projection_row_worker
  rw [if_neg (not_not.mpr ⟨hfmt, hdfmt⟩), if_pos h]

theorem projection_row_worker_corrupt (kresults : kern_resultbuf)
    (kds_format gid : Nat) (kds_dest : kds_dest_row_t)
    (hbad : ¬ ((kds_format = KDS_FORMAT_ROW ∨
                kds_format = KDS_FORMAT_ROW_FLAT) ∧
               kds_dest.format = KDS_FORMAT_ROW_FLAT)) :
    projection_row_worker kresults kds_format gid kds_dest =
      (kds_dest, StromError_DataStoreCorruption) := by
  unfold projection_row_worker
  rw [if_pos hbad]

theorem projection_row_worker_fix (kresults : kern_resultbuf)
    (kds_format gid : Nat) (kds_dest : kds_dest_row_t) (hgid : gid ≠ 0) :
    (projection_row_worker kresults kds_format gid kds_dest).1 =
      kds_dest := by
  unfold projection_row_worker
  by_cases hA : ¬ ((kds_format = KDS_FORMAT_ROW ∨
      kds_format = KDS_FORMAT_ROW_FLAT) ∧
      kds_dest.format = KDS_FORMAT_ROW_FLAT)
  · rw [if_pos hA]
  · rw [if_neg hA]
    by_cases hB : kresults.nitems > kresults.nrooms ∨
        kresults.nitems > kds_dest.nrooms
    · rw [if_pos hB]
    · rw [if_neg hB, if_neg hgid]

theorem projection_slot_worker_nospace
    (body : Nat → (Nat → Int) × (Nat → Bool) × Nat)
    (kresults : kern_resultbuf) (kds_format gid : Nat)
    (kds_dest : kds_dest_slot_t)
    (h : kresults.nitems > kresults.nrooms ∨
         kresults.nitems > kds_dest.nrooms) :
    projection_slot_worker body kresults kds_format gid kds_dest =
      (kds_dest, StromError_DataStoreNoSpace) := by
  unfold projection_slot_worker
  rw [if_pos h]

theorem projection_slot_worker_nitems_other
    (body : Nat → (Nat → Int) × (Nat → Bool) × Nat)
    (kresults : kern_resultbuf) (kds_format gid : Nat)
    (kds_dest : kds_dest_slot_t) (hgid : gid ≠ 0) :
    (projection_slot_worker body kresults kds_format gid kds_dest).1.nitems =
      kds_dest.nitems := by
  unfold projection_slot_worker
  split
  · rfl
  · simp only [hgid, if_false]
    split
    · rfl
    · split
      · rfl
      · rfl

theorem projection_slot_worker_zero_nitems
    (body : Nat → (Nat → Int) × (Nat → Bool) × Nat)
    (kresults : kern_resultbuf) (kds_format : Nat)
    (kds_dest : kds_dest_slot_t)
    (h1 : kresults.nitems ≤ kresults.nrooms)
    (h2 : kresults.nitems ≤ kds_dest.nrooms) :
    (projection_slot_worker body kresults kds_format 0 kds_dest).1.nitems =
      kresults.nitems := by
  unfold projection_slot_worker
  rw [if_neg (by omega)]
  simp only [if_pos rfl]
  split
  · rfl
  · split
    · rfl
    · rfl

theorem projection_slot_worker_zero_badfmt
    (body : Nat → (Nat → Int) × (Nat → Bool) × Nat)
    (kresults : kern_resultbuf) (kds_format : Nat)
    (kds_dest : kds_dest_slot_t)
    (h1 : kresults.nitems ≤ kresults.nrooms)
    (h2 : kresults.nitems ≤ kds_dest.nrooms)
    (h3 : 0 < kresults.nitems)
    (hbad : ¬ ((kds_format = KDS_FORMAT_ROW ∨
                kds_format = KDS_FORMAT_ROW_FLAT) ∧
               kds_dest.format = KDS_FORMAT_TUPSLOT)) :
    projection_slot_worker body kresults kds_format 0 kds_dest =
      ({ kds_dest with nitems := kresults.nitems },
       StromError_DataStoreCorruption) := by
  unfold projection_slot_worker
  rw [if_neg (by omega)]
  rw [if_neg (show ¬ 0 ≥ kresults.nitems by omega), if_pos hbad]
  simp

theorem projection_slot_worker_other_badfmt
    (body : Nat → (Nat → Int) × (Nat → Bool) × Nat)
    (kresults : kern_resultbuf) (kds_format gid : Nat)
    (kds_dest : kds_dest_slot_t) (hgid : gid ≠ 0)
    (h1 : kresults.nitems ≤ kresults.nrooms)
    (h2 : kresults.nitems ≤ kds_dest.nrooms)
    (hbad : ¬ ((kds_format = KDS_FORMAT_ROW ∨
                kds_format = KDS_FORMAT_ROW_FLAT) ∧
               kds_dest.format = KDS_FORMAT_TUPSLOT)) :
    (projection_slot_worker body kresults kds_format gid kds_dest).1 =
      kds_dest := by
  unfold projection_slot_worker
  rw [if_neg (by omega)]
  simp only [hgid, if_false]
  by_cases hge : gid ≥ kresults.nitems
  · rw [if_pos hge]
  · rw [if_neg hge, if_pos hbad]

/-- Claim C5 counterexample: with a destination in the wrong format
(flat-row instead of slot-array) and an empty successful ResultBuffer
(`nitems = 0`, within every capacity), the slot projection kernel
signals no DataStoreCorruption at all — its format check sits behind
the per-output-row responsibility check, which no worker passes — and
it still overwrites the destination's item count (7 becomes 0).  The
row kernel, by contrast, would have signalled corruption before any
write, so the two kernels do not enforce the format precondition with
the same bookkeeping. -/
theorem projection_slot_format_not_signalled :
    (kern_gpuhashjoin_projection_slot
        (fun _ => (fun _ => 0, fun _ => false, 0))
        ⟨2, 4, 0, 0, fun _ => 0⟩ KDS_FORMAT_ROW 1
        ⟨KDS_FORMAT_ROW_FLAT, 4, 7, fun _ _ => 0, fun _ _ => false⟩).2 ≠
      StromError_DataStoreCorruption ∧
    (kern_gpuhashjoin_projection_slot
        (fun _ => (fun _ => 0, fun _ => false, 0))
        ⟨2, 4, 0, 0, fun _ => 0⟩ KDS_FORMAT_ROW 1
        ⟨KDS_FORMAT_ROW_FLAT, 4, 7, fun _ _ => 0, fun _ _ => false⟩).2 =
      StromError_Success ∧
    (kern_gpuhashjoin_projection_slot
        (fun _ => (fun _ => 0, fun _ => false, 0))
        ⟨2, 4, 0, 0, fun _ => 0⟩ KDS_FORMAT_ROW 1
        ⟨KDS_FORMAT_ROW_FLAT, 4, 7, fun _ _ => 0,
         fun _ _ => false⟩).1.nitems = 0 :=
  ⟨by decide, rfl, rfl⟩

/-- Claim C5 (amended): the two projection kernels share the no-space
precondition — `kresults->nitems` above `kresults->nrooms` or the
destination's `nrooms` is signalled as DataStoreNoSpace with no writes
to the destination — and the destination item count is written only by
the worker with global id 0; but the format precondition is enforced
asymmetrically: the row kernel signals DataStoreCorruption before any
destination write, while the slot kernel runs its format check after
the no-space check, after the item-count update, and only in workers
responsible for an output row, so with bad formats it still updates the
destination item count (and, when `nitems = 0`, signals nothing). -/
theorem projection_preconditions_amended (kresults : kern_resultbuf)
    (kds_format nthreads : Nat) (drow : kds_dest_row_t)
    (dslot : kds_dest_slot_t)
    (body : Nat → (Nat → Int) × (Nat → Bool) × Nat)
    (hn : 0 < nthreads) :
    ((kds_format = KDS_FORMAT_ROW ∨ kds_format = KDS_FORMAT_ROW_FLAT) →
     drow.format = KDS_FORMAT_ROW_FLAT →
     (kresults.nitems > kresults.nrooms ∨
      kresults.nitems > drow.nrooms) →
     kern_gpuhashjoin_projection_row kresults kds_format nthreads drow =
       (drow, STROM_SET_ERROR kresults.errcode
          StromError_DataStoreNoSpace)) ∧
    ((kresults.nitems > kresults.nrooms ∨
      kresults.nitems > dslot.nrooms) →
     kern_gpuhashjoin_projection_slot body kresults kds_format nthreads
         dslot =
       (dslot, STROM_SET_ERROR kresults.errcode
          StromError_DataStoreNoSpace)) ∧
    (¬ ((kds_format = KDS_FORMAT_ROW ∨
         kds_format = KDS_FORMAT_ROW_FLAT) ∧
        drow.format = KDS_FORMAT_ROW_FLAT) →
     kern_gpuhashjoin_projection_row kresults kds_format nthreads drow =
       (drow, STROM_SET_ERROR kresults.errcode
          StromError_DataStoreCorruption)) ∧
    (kresults.nitems ≤ kresults.nrooms → kresults.nitems ≤ dslot.nrooms →
     0 < kresults.nitems →
     ¬ ((kds_format = KDS_FORMAT_ROW ∨
         kds_format = KDS_FORMAT_ROW_FLAT) ∧
        dslot.format = KDS_FORMAT_TUPSLOT) →
     kern_gpuhashjoin_projection_slot body kresults kds_format nthreads
         dslot =
       ({ dslot with nitems := kresults.nitems },
        STROM_SET_ERROR kresults.errcode
          StromError_DataStoreCorruption)) ∧
    (∀ gid, gid ≠ 0 →
      (projection_row_worker kresults kds_format gid drow).1 = drow) ∧
    (∀ gid, gid ≠ 0 →
      (projection_slot_worker body kresults kds_format gid dslot).1.nitems =
        dslot.nitems) ∧
    (kresults.nitems ≤ kresults.nrooms → kresults.nitems ≤ dslot.nrooms →
      (projection_slot_worker body kresults kds_format 0 dslot).1.nitems =
        kresults.nitems) := by
  refine ⟨fun hfmt hdfmt h => ?_, fun h => ?_, fun hbad => ?_,
    fun h1 h2 h3 hbad => ?_,
    fun gid hgid => projection_row_worker_fix kresults kds_format gid drow
      hgid,
    fun gid hgid => projection_slot_worker_nitems_other body kresults
      kds_format gid dslot hgid,
    fun h1 h2 => projection_slot_worker_zero_nitems body kresults
      kds_format dslot h1 h2⟩
  · unfold kern_gpuhashjoin_projection_row
    exact kernel_launch_run _ drow drow StromError_DataStoreNoSpace
      (projection_row_worker_nospace kresults kds_format 0 drow hfmt
        hdfmt h)
      (fun gid _ => projection_row_worker_nospace kresults kds_format gid
        drow hfmt hdfmt h)
      nthreads hn kresults.errcode
  · unfold kern_gpuhashjoin_projection_slot
    exact kernel_launch_run _ dslot dslot StromError_DataStoreNoSpace
      (projection_slot_worker_nospace body kresults kds_format 0 dslot h)
      (fun gid _ => projection_slot_worker_nospace body kresults kds_format
        gid dslot h)
      nthreads hn kresults.errcode
  · unfold kern_gpuhashjoin_projection_row
    exact kernel_launch_run _ drow drow StromError_DataStoreCorruption
      (projection_row_worker_corrupt kresults kds_format 0 drow hbad)
      (fun gid _ => projection_row_worker_corrupt kresults kds_format gid
        drow hbad)
      nthreads hn kresults.errcode
  · unfold kern_gpuhashjoin_projection_slot
    exact kernel_launch_first_error _ dslot
      { dslot with nitems := kresults.nitems }
      StromError_DataStoreCorruption (by decide)
      (projection_slot_worker_zero_badfmt body kresults kds_format dslot
        h1 h2 h3 hbad)
      (fun gid hgid => projection_slot_worker_other_badfmt body kresults
        kds_format gid { dslot with nitems := kresults.nitems }
        (Nat.pos_iff_ne_zero.mp hgid) h1 h2 hbad)
      nthreads hn kresults.errcode

theorem projection_preconditions_amended_witness :
    kern_gpuhashjoin_projection_slot
        (fun _ => (fun _ => 0, fun _ => false, 0))
        ⟨2, 4, 1, 0, fun _ => 0⟩ KDS_FORMAT_ROW 1
        ⟨KDS_FORMAT_ROW_FLAT, 4, 7, fun _ _ => 0, fun _ _ => false⟩ =
      ({ (⟨KDS_FORMAT_ROW_FLAT, 4, 7, fun _ _ => 0, fun _ _ => false⟩ :
          kds_dest_slot_t) with nitems := 1 },
       STROM_SET_ERROR StromError_Success
         StromError_DataStoreCorruption) :=
  (projection_preconditions_amended ⟨2, 4, 1, 0, fun _ => 0⟩
    KDS_FORMAT_ROW 1
    ⟨KDS_FORMAT_ROW_FLAT, 4, 0, 0, 1000, fun _ => 0, fun _ => 0⟩
    ⟨KDS_FORMAT_ROW_FLAT, 4, 7, fun _ _ => 0, fun _ _ => false⟩
    (fun _ => (fun _ => 0, fun _ => false, 0))
    (by decide)).2.2.2.1 (by decide) (by decide) (by decide) (by decide)

/-- Claim C7: both projection kernels interpret the `nrels` contiguous
result slots of a combination through
`rbuffer = kresults->results + nrels * gid`: slot 0 holds
`outer_row_index + 1`, so the outer tuple is looked up at
`rbuffer[0] - 1`, i.e. at `results[nrels * gid] - 1`; and each slot `d`
with `1 ≤ d < nrels` holds the byte offset of the matched hash entry
relative to inner table `d`'s base, so the entry is read at the address
of `KERN_HASHTABLE(kmhash, d)` plus `rbuffer[d]`. -/
theorem projection_rbuffer_interpretation (kmhash : kern_multihash)
    (kresults : kern_resultbuf) (gid d : Nat)
    (h1 : 1 ≤ d) (h2 : d < kresults.nrels) :
    projection_slot_tuple_loc kmhash kresults gid 0 =
      tuple_loc.fromOuterRow (kresults.results (kresults.nrels * gid) - 1) ∧
    projection_slot_tuple_loc kmhash kresults gid d =
      tuple_loc.fromHashEntry ((KERN_HASHTABLE_off kmhash d : Int) +
        kresults.results (kresults.nrels * gid + d)) ∧
    projection_row_datum_loc kmhash kresults gid 0 =
      some (tuple_loc.fromOuterRow
        (kresults.results (kresults.nrels * gid) - 1)) ∧
    projection_row_datum_loc kmhash kresults gid d =
      some (tuple_loc.fromHashEntry ((KERN_HASHTABLE_off kmhash d : Int) +
        kresults.results (kresults.nrels * gid + d))) := by
  have hd0 : d ≠ 0 := by omega
  refine ⟨?_, ?_, ?_, ?_⟩ <;>
    simp [projection_slot_tuple_loc, projection_row_datum_loc, rbuffer_of,
      hd0, h2]

theorem projection_rbuffer_interpretation_witness :
    projection_slot_tuple_loc ⟨1, fun i => 100 * i⟩
        ⟨2, 4, 2, 0, fun i => 10 + i⟩ 1 0 =
      tuple_loc.fromOuterRow 11 ∧
    projection_slot_tuple_loc ⟨1, fun i => 100 * i⟩
        ⟨2, 4, 2, 0, fun i => 10 + i⟩ 1 1 =
      tuple_loc.fromHashEntry 113 := by
  have h := projection_rbuffer_interpretation ⟨1, fun i => 100 * i⟩
    ⟨2, 4, 2, 0, fun i => 10 + i⟩ 1 1 (by decide) (by decide)
  refine ⟨?_, ?_⟩
  · rw [h.1]; decide
  · rw [h.2.1]; decide

/-- Claim C8: for a hash table with `nslots ≥ 1` and any 32-bit hash
value, `KERN_HASH_FIRST_ENTRY` computes the bucket index as
`hash % nslots` and returns no entry exactly when
`slot[hash % nslots] = 0`, otherwise the entry at that byte offset from
the table's base; `KERN_HASH_NEXT_ENTRY` returns no entry exactly when
the current entry's `next` field is 0, otherwise the entry at byte
offset `next` from the table's base. -/
theorem hash_chain_addressing (khtable : kern_hashtable) (hash : Nat)
    (khentry : kern_hashentry) (hslots : 1 ≤ khtable.nslots) :
    (KERN_HASH_FIRST_ENTRY khtable hash = some none ↔
      khtable.hash_slot (hash % khtable.nslots) = 0) ∧
    (khtable.hash_slot (hash % khtable.nslots) ≠ 0 →
      KERN_HASH_FIRST_ENTRY khtable hash =
        some (some (khtable.hash_slot (hash % khtable.nslots)))) ∧
    (KERN_HASH_NEXT_ENTRY khtable khentry = none ↔ khentry.next = 0) ∧
    (khentry.next ≠ 0 →
      KERN_HASH_NEXT_ENTRY khtable khentry = some khentry.next) := by
  have hz : khtable.nslots ≠ 0 := by omega
  refine ⟨?_, fun h => ?_, ?_, fun h => ?_⟩
  · simp only [KERN_HASH_FIRST_ENTRY, bucket_index, hz, if_false]
    by_cases h : khtable.hash_slot (hash % khtable.nslots) = 0 <;> simp [h]
  · simp [KERN_HASH_FIRST_ENTRY, bucket_index, hz, h]
  · simp [KERN_HASH_NEXT_ENTRY]
  · simp [KERN_HASH_NEXT_ENTRY, h]

theorem hash_chain_addressing_witness :
    (KERN_HASH_FIRST_ENTRY
        ⟨2, 3, (fun i => if i = 2 then 40 else 0), fun _ => ⟨8, 5, 7, 16⟩⟩
        5 = some (some 40)) ∧
    (KERN_HASH_NEXT_ENTRY
        ⟨2, 3, (fun i => if i = 2 then 40 else 0), fun _ => ⟨8, 5, 7, 16⟩⟩
        ⟨8, 5, 7, 16⟩ = some 8) :=
  ⟨(hash_chain_addressing
      ⟨2, 3, (fun i => if i = 2 then 40 else 0), fun _ => ⟨8, 5, 7, 16⟩⟩
      5 ⟨8, 5, 7, 16⟩ (by decide)).2.1 (by decide),
   (hash_chain_addressing
      ⟨2, 3, (fun i => if i = 2 then 40 else 0), fun _ => ⟨8, 5, 7, 16⟩⟩
      5 ⟨8, 5, 7, 16⟩ (by decide)).2.2.2 (by decide)⟩

/-- Claim C9: `pg_varlena_hashref` returns the datum with
`isnull = false` exactly when the datum is present and encoded as an
uncompressed 4-byte-header (`VARATT_IS_4B_U`) or a short 1-byte-header
(`VARATT_IS_1B`) varlena; for every other present encoding it returns
`isnull = true` and sets the per-row error code to CpuReCheck through
the first-non-success-wins update; for an absent datum it returns
`isnull = true` without touching the error code. -/
theorem varlena_hashref_cases (vl_ptr : Option Nat) (errcode : Nat) :
    (pg_varlena_hashref none errcode =
      ({ isnull := true, value := none }, errcode)) ∧
    (∀ hdr, vl_ptr = some hdr →
      (VARATT_IS_4B_U hdr || VARATT_IS_1B hdr) = true →
      pg_varlena_hashref vl_ptr errcode =
        ({ isnull := false, value := some hdr }, errcode)) ∧
    (∀ hdr, vl_ptr = some hdr →
      (VARATT_IS_4B_U hdr || VARATT_IS_1B hdr) = false →
      (pg_varlena_hashref vl_ptr errcode).1.isnull = true ∧
      (pg_varlena_hashref vl_ptr errcode).2 =
        STROM_SET_ERROR errcode StromError_CpuReCheck ∧
      (errcode = StromError_Success →
        (pg_varlena_hashref vl_ptr errcode).2 = StromError_CpuReCheck)) := by
  refine ⟨rfl, fun hdr hv h => ?_, fun hdr hv h => ?_⟩
  · subst hv; simp [pg_varlena_hashref, h]
  · subst hv
    refine ⟨by simp [pg_varlena_hashref, h],
      by simp [pg_varlena_hashref, h],
      fun he => by simp [pg_varlena_hashref, h, STROM_SET_ERROR, he]⟩

theorem varlena_hashref_cases_witness :
    pg_varlena_hashref (some 4) 0 =
      ({ isnull := false, value := some 4 }, 0) ∧
    (pg_varlena_hashref (some 2) 0).1.isnull = true ∧
    (pg_varlena_hashref (some 2) 0).2 = StromError_CpuReCheck :=
  ⟨(varlena_hashref_cases (some 4) 0).2.1 4 rfl (by decide),
   ((varlena_hashref_cases (some 2) 0).2.2 2 rfl (by decide)).1,
   ((varlena_hashref_cases (some 2) 0).2.2 2 rfl (by decide)).2.2 rfl⟩

/-- Claim C10: the bucket-index computation of `KERN_HASH_FIRST_ENTRY`
performs `hash % khtable->nslots` with no guard: it is total, with a
result in `[0, nslots)`, exactly under the precondition `nslots ≥ 1`;
for a table with `nslots = 0` the division-by-zero branch is reached
and the operation is undefined. -/
theorem bucket_index_totality :
    (∀ hash nslots, 1 ≤ nslots →
      ∃ i, bucket_index hash nslots = some i ∧ i < nslots) ∧
    (∀ hash, bucket_index hash 0 = none) ∧
    (∀ khtable : kern_hashtable, ∀ hash, khtable.nslots = 0 →
      KERN_HASH_FIRST_ENTRY khtable hash = none) ∧
    (∀ khtable : kern_hashtable, ∀ hash, 1 ≤ khtable.nslots →
      KERN_HASH_FIRST_ENTRY khtable hash ≠ none) := by
  refine ⟨fun hash nslots h => ?_, fun hash => rfl,
    fun khtable hash h => ?_, fun khtable hash h => ?_⟩
  · exact ⟨hash % nslots, by simp [bucket_index, Nat.pos_iff_ne_zero.mp h],
      Nat.mod_lt _ h⟩
  · simp [KERN_HASH_FIRST_ENTRY, bucket_index, h]
  · have hz : khtable.nslots ≠ 0 := by omega
    simp only [KERN_HASH_FIRST_ENTRY, bucket_index, hz, if_false]
    by_cases hs : khtable.hash_slot (hash % khtable.nslots) = 0 <;>
      simp [hs]

theorem bucket_index_totality_witness :
    (∃ i, bucket_index 7 3 = some i ∧ i < 3) ∧
    bucket_index 7 0 = none ∧
    KERN_HASH_FIRST_ENTRY ⟨2, 0, fun _ => 0, fun _ => ⟨0, 0, 0, 0⟩⟩ 7 =
      none ∧
    KERN_HASH_FIRST_ENTRY ⟨2, 3, fun _ => 0, fun _ => ⟨0, 0, 0, 0⟩⟩ 7 ≠
      none :=
  ⟨bucket_index_totality.1 7 3 (by decide),
   bucket_index_totality.2.1 7,
   bucket_index_totality.2.2.1 ⟨2, 0, fun _ => 0, fun _ => ⟨0, 0, 0, 0⟩⟩ 7
     rfl,
   bucket_index_totality.2.2.2 ⟨2, 3, fun _ => 0, fun _ => ⟨0, 0, 0, 0⟩⟩ 7
     (by decide)⟩

end PgStrom
